import Mathlib

/-
  Verification development for the content-analyzer repository.

  The Python sources under src/ are embedded shallowly:
  pure functions become Lean functions, file-system and HTTP effects become
  explicit state passing (an abstract file store, upstream-call logs), and
  fallible code returns Except or Option.  External collaborators
  (hashlib.md5, the OpenAI / Ollama model endpoints, the Whisper API,
  yt-dlp, the requests library) are modelled as parameters: each one is a
  deterministic function supplied to the embedded code, which matches how
  the repository treats them (opaque services called with a payload).

  Python string builtins used by the sources (split, join, strip, replace,
  lower, slicing) are translated as executable Lean functions over the
  character lists underlying String; each carries a comment naming the
  builtin it models.
-/

/-! ## Python string builtins -/

/-- Helper for the translation of Python str.split and substring search:
finds the first occurrence of the character sequence sep in l and returns
the part before it together with the part after it. -/
def findSep (sep : List Char) : List Char → Option (List Char × List Char)
  | [] => none
  | c :: cs =>
    if sep.isPrefixOf (c :: cs) then some ([], (c :: cs).drop sep.length)
    else
      match findSep sep cs with
      | none => none
      | some (pre, post) => some (c :: pre, post)

/-- Fuel-driven worker for splitSep; the fuel is an upper bound on the
number of splits, which is at most the length of the input. -/
def splitSepFuel (sep : List Char) : Nat → List Char → List (List Char)
  | 0, l => [l]
  | fuel + 1, l =>
    match findSep sep l with
    | none => [l]
    | some (pre, post) => pre :: splitSepFuel sep fuel post

/-- Python str.split(sep) for a non-empty separator, over character
lists: splits at each non-overlapping occurrence of sep, left to right.
The sources never call split with an empty separator (Python would raise
there); that case is mapped to the identity split. -/
def splitSep (sep : List Char) (l : List Char) : List (List Char) :=
  if sep.isEmpty then [l] else splitSepFuel sep l.length l

/-- Python str.split(sep) on strings. -/
def pySplit (s sep : String) : List String :=
  (splitSep sep.data s.data).map String.mk

/-- Python sep.join(xs) on strings. -/
def pyJoin (sep : String) (xs : List String) : String :=
  String.mk (List.intercalate sep.data (xs.map String.data))

/-- Python s[:n] (slicing keeps the first n characters). -/
def pyTake (s : String) (n : Nat) : String :=
  String.mk (s.data.take n)

/-- Python str.strip() with the default whitespace set. -/
def pyStrip (s : String) : String :=
  String.mk (((s.data.dropWhile Char.isWhitespace).reverse.dropWhile Char.isWhitespace).reverse)

/-- Python str.replace(old, new) for a non-empty old, via the identity
s.replace(old, new) == new.join(s.split(old)). -/
def pyReplace (s old new : String) : String :=
  pyJoin new (pySplit s old)

/-- Python str.lower(), restricted to the character-wise lowering that the
strings appearing in this repository need. -/
def pyLower (s : String) : String :=
  String.mk (s.data.map Char.toLower)

/-- Python membership test: sub in s. -/
def pyIn (sub s : String) : Bool :=
  (findSep sub.data s.data).isSome

/-- Python str.rstrip(c) for a single character c. -/
def pyRstrip (s : String) (c : Char) : String :=
  String.mk ((s.data.reverse.dropWhile (fun x => x == c)).reverse)

/-! ## JSON values

The cache files and the records exchanged with the Capacities API are
Python objects produced by json.load / consumed by json.dump.  They are
modelled by an inductive JSON value type; numbers are restricted to the
integers actually appearing in the records of this repository. -/

inductive Json where
  | null
  | bool (b : Bool)
  | num (n : Int)
  | str (s : String)
  | arr (elems : List Json)
  | obj (members : List (String × Json))

/-- Lookup in the member list of a Python dict (first binding wins;
CPython dicts cannot hold duplicate keys, so the first is the only one). -/
def lookupKV : List (String × Json) → String → Option Json
  | [], _ => none
  | (k', v) :: rest, k => if k' = k then some v else lookupKV rest k

/-- Python d.get(k) / d[k] lookup on a JSON object; none on missing key or
on a non-object. -/
def objGet : Json → String → Option Json
  | .obj kvs, k => lookupKV kvs k
  | _, _ => none

/-- Python k in d. -/
def objHasKey (j : Json) (k : String) : Bool :=
  (objGet j k).isSome

/-- Key update for the member list of a Python dict: an existing key keeps
its position, a new key is appended, as in CPython. -/
def setKV : List (String × Json) → String → Json → List (String × Json)
  | [], k, v => [(k, v)]
  | (k', v') :: rest, k, v =>
    if k' = k then (k, v) :: rest else (k', v') :: setKV rest k v

/-- Python d[k] = v on a JSON object (identity on non-objects, which the
sources never hit). -/
def objSet : Json → String → Json → Json
  | .obj kvs, k, v => .obj (setKV kvs k v)
  | j, _, _ => j

/-- Python truthiness of a JSON value, as used by the cache-hit test
in process_video (src/app.py line 107). -/
def jsonTruthy : Json → Bool
  | .null => false
  | .bool b => b
  | .num n => n != 0
  | .str s => !s.isEmpty
  | .arr l => !l.isEmpty
  | .obj kvs => !kvs.isEmpty

/-! ## Cache Store (src/utils/cache_manager.py)

The cache directory is modelled as a map from file names to file data.
A file holds either JSON text that json.load parses back to a value, or
content on which open/json.load raises (a corrupt or unreadable file). -/

inductive FileData where
  | valid (j : Json)
  | corrupt

/-- The cache directory: file name to file data, none when absent. -/
def FS : Type := String → Option FileData

/-- Write a file (json.dump of a serializable value always produces
parseable text). -/
def fsSet (fs : FS) (name : String) (d : FileData) : FS :=
  fun m => if m = name then some d else fs m

/-- CacheManager.get_cache_key: hashlib.md5(url.encode()).hexdigest().
The md5 hex digest is an external library call, passed in as a
deterministic function. -/
def getCacheKey (md5hex : String → String) (url : String) : String :=
  md5hex url

/-- os.path.join(self.cache_dir, cache_key + ".json") as built by
CacheManager (src/utils/cache_manager.py lines 15 and 24). -/
def cacheFileName (cacheDir : String) (key : String) : String :=
  cacheDir ++ "/" ++ key ++ ".json"

/-- CacheManager.get_cached_result (src/utils/cache_manager.py lines
13-20): if the file exists it is opened and json.load is applied with no
exception handling, so a file whose content does not parse makes the
lookup raise; an absent file yields None. -/
def getCachedResult (md5hex : String → String) (cacheDir : String)
    (fs : FS) (url : String) : Except String (Option Json) :=
  match fs (cacheFileName cacheDir (getCacheKey md5hex url)) with
  | none => .ok none
  | some (.valid j) => .ok (some j)
  | some .corrupt => .error "json.JSONDecodeError: cache file content is not valid JSON"

/-- CacheManager.save_to_cache (src/utils/cache_manager.py lines 22-27):
json.dump of the result into the file derived from the same key. -/
def saveToCache (md5hex : String → String) (cacheDir : String)
    (fs : FS) (url : String) (result : Json) : FS :=
  fsSet fs (cacheFileName cacheDir (getCacheKey md5hex url)) (.valid result)

/-! ## VideoProcessor (src/utils/video_processor.py)

The hosted language model is an external collaborator; its four call
sites are modelled by four deterministic response functions collected in
Oracles.  Each oracle receives exactly the variable part of the prompt
the source sends (the transcript text already truncated by the slice the
source applies before interpolation).  The embedding follows the openai
configuration, which is the one src/app.py instantiates. -/

/-- One entry of the timestamps list built by get_transcript:
a dict with keys time (an HH:MM:SS string) and text. -/
structure TSEntry where
  time : String
  text : String
deriving DecidableEq, Repr

/-- One chapter dict: keys timestamp, title, summary. -/
structure Chapter where
  timestamp : String
  title : String
  summary : String
deriving DecidableEq, Repr

/-- Deterministic model responses for the four call sites of
VideoProcessor: _generate_chapters (fallback branch), _generate_tags,
_generate_summary and _summarize_text. -/
structure Oracles where
  chaptersLLM : String → String
  tagsLLM : String → String
  summaryLLM : String → String
  sumLLM : String → String

/-- Python format f with 02d: the decimal digits of n, left padded with a
zero to width two. -/
def pad2 (n : Nat) : String :=
  if n < 10 then "0" ++ toString n else toString n

/-- VideoProcessor._format_timestamp (src/utils/video_processor.py lines
98-103): seconds to HH:MM:SS with each field zero padded to two digits. -/
def formatTimestamp (seconds : Nat) : String :=
  pad2 (seconds / 3600) ++ ":" ++ pad2 (seconds % 3600 / 60) ++ ":" ++ pad2 (seconds % 60)

/-- VideoProcessor._generate_summary (lines 257-268): one model call on
the first 4000 characters of the text. -/
def genSummary (o : Oracles) (text : String) : String :=
  o.summaryLLM (pyTake text 4000)

/-- VideoProcessor._summarize_text (lines 284-295): one model call on the
first 1000 characters of the text. -/
def summarizeText (o : Oracles) (text : String) : String :=
  o.sumLLM (pyTake text 1000)

/-- VideoProcessor._generate_tags (lines 228-255): the model response for
the first 2000 characters is split on commas, and each piece is stripped
and has hash signs removed. -/
def genTags (o : Oracles) (text : String) : List String :=
  (pySplit (o.tagsLLM (pyTake text 2000)) ",").map
    (fun tag => pyReplace (pyStrip tag) "#" "")

/-- The bucket accumulator of _generate_chapters: collected chapter
points, start timestamp and accumulated text of the current bucket, and
the running entry index. -/
structure BucketAcc where
  points : List (String × String)
  start : String
  text : String
  idx : Nat

/-- One step of the bucket loop of _generate_chapters (lines 178-184):
append the entry text, and close the bucket on every thirtieth entry
after the first. -/
def bucketStep (acc : BucketAcc) (entry : TSEntry) : BucketAcc :=
  let text := acc.text ++ " " ++ entry.text
  if acc.idx > 0 && acc.idx % 30 == 0 then
    { points := acc.points ++ [(acc.start, text)], start := entry.time, text := "", idx := acc.idx + 1 }
  else
    { acc with text := text, idx := acc.idx + 1 }

/-- The chapter points (start timestamp, concatenated text) built by
_generate_chapters from a timestamps list (lines 174-188). -/
def chapterPoints (ts : List TSEntry) : List (String × String) :=
  match ts with
  | [] => []
  | first :: _ =>
    let acc := ts.foldl bucketStep { points := [], start := first.time, text := "", idx := 0 }
    if acc.text ≠ "" then acc.points ++ [(acc.start, acc.text)] else acc.points

/-- VideoProcessor._generate_chapters (lines 171-226).  With a truthy
timestamps list, buckets of thirty caption entries are summarized into
chapters carrying the bucket start time; the title is the summary cut to
fifty characters with an ellipsis.  Without timestamps the openai branch
issues one model call and returns a single chapter at 00:00. -/
def genChapters (o : Oracles) (transcript : String) (timestamps : Option (List TSEntry)) : List Chapter :=
  match timestamps with
  | some entries =>
    if entries.isEmpty then
      [{ timestamp := "00:00", title := "Start", summary := o.chaptersLLM (pyTake transcript 4000) }]
    else
      (chapterPoints entries).map (fun p =>
        let s := summarizeText o p.2
        { timestamp := p.1, title := pyTake s 50 ++ "...", summary := s })
  | none =>
    [{ timestamp := "00:00", title := "Start", summary := o.chaptersLLM (pyTake transcript 4000) }]

/-- The fixed chunking threshold of process_content (line 109). -/
def maxChunkSize : Nat := 4000

/-- One step of the sentence-chunking loop of process_content (lines
118-126), on the accumulator (closed chunks, current chunk, current
size). -/
def chunkStep (acc : List (List String) × List String × Nat) (sentence : String) :
    List (List String) × List String × Nat :=
  if acc.2.2 + sentence.length > maxChunkSize && !acc.2.1.isEmpty then
    (acc.1 ++ [acc.2.1], [sentence], sentence.length)
  else
    (acc.1, acc.2.1 ++ [sentence], acc.2.2 + sentence.length)

/-- The chunking loop of process_content as sentence lists (lines
115-129): greedy accumulation of sentences, flushing when the size bound
would be exceeded, with the trailing chunk appended if non-empty. -/
def sentenceChunks (sentences : List String) : List (List String) :=
  let acc := sentences.foldl chunkStep ([], [], 0)
  if !acc.2.1.isEmpty then acc.1 ++ [acc.2.1] else acc.1

/-- Re-joining one chunk: sentences joined with the separator the split
removed, plus a closing period (lines 121 and 129). -/
def joinChunk (sentences : List String) : String :=
  pyJoin ". " sentences ++ "."

/-- The chunk list of process_content (lines 108-131): input over the
threshold is split at sentence boundaries and re-chunked, otherwise it is
a single chunk. -/
def splitChunks (transcript : String) : List String :=
  if transcript.length > maxChunkSize then
    (sentenceChunks (pySplit transcript ". ")).map joinChunk
  else [transcript]

/-- Python set insertion on the model of a set as its insertion-ordered
element list (CPython leaves the enumeration order of a set unspecified;
the embedding fixes insertion order, which none of the verified
properties depend on). -/
def setInsert (l : List String) (x : String) : List String :=
  if x ∈ l then l else l ++ [x]

/-- Python set.update with an iterable. -/
def setUpdate (l : List String) (xs : List String) : List String :=
  xs.foldl setInsert l

/-- The per-chunk loop of process_content (lines 133-152): chapters are
concatenated, stripped tags are unioned into the tag set, summaries are
collected in order.  The timestamps are forwarded only when there is a
single chunk (line 141). -/
def processChunks (o : Oracles) (timestamps : Option (List TSEntry)) (chunks : List String) :
    List Chapter × List String × List String :=
  chunks.foldl
    (fun acc chunk =>
      (acc.1 ++ genChapters o chunk (if chunks.length = 1 then timestamps else none),
       setUpdate acc.2.1 ((genTags o chunk).map pyStrip),
       acc.2.2 ++ [genSummary o chunk]))
    ([], [], [])

/-- The comparison key of the final chapter sort (line 158): the
timestamp string of the chapter dict. -/
def chapterLe (a b : Chapter) : Prop :=
  a.timestamp ≤ b.timestamp

instance : DecidableRel chapterLe :=
  fun a b => inferInstanceAs (Decidable (a.timestamp ≤ b.timestamp))

instance : IsTotal Chapter chapterLe :=
  ⟨fun a b => le_total a.timestamp b.timestamp⟩

instance : IsTrans Chapter chapterLe :=
  ⟨fun _ _ _ hab hbc => le_trans hab hbc⟩

/-- The result dict of process_content. -/
structure ContentResult where
  chapters : List Chapter
  tags : List String
  summary : String
deriving DecidableEq, Repr

/-- VideoProcessor.process_content (lines 105-161): chunk the transcript,
process every chunk, sort the concatenated chapters by timestamp (Python
sorted is a stable sort on the key, modelled by the stable insertion
sort), keep the first ten tags of the set, and re-summarize the joined
chunk summaries exactly when there is more than one of them. -/
def processContent (o : Oracles) (transcript : String) (timestamps : Option (List TSEntry)) :
    ContentResult :=
  let chunks := splitChunks transcript
  let acc := processChunks o timestamps chunks
  let finalSummary :=
    if acc.2.2.length > 1 then genSummary o (pyJoin "\n" acc.2.2) else acc.2.2.headD ""
  { chapters := List.insertionSort chapterLe acc.1,
    tags := acc.2.1.take 10,
    summary := finalSummary }

/-! ## GitHub README retrieval and repository processing
(src/github_repo_analyzer/analyzer.py, src/app.py) -/

/-- GitHubRepoAnalyzer.get_readme (src/github_repo_analyzer/analyzer.py
lines 18-27): the HTTP GET on the readme endpoint is the collaborator;
its answer is a status code together with the base64-decoded content that
a 200 body carries.  Any non-200 status yields None. -/
def getReadme (status : Nat) (decodedContent : String) : Option String :=
  if status = 200 then some decodedContent else none

/-- extract_github_info (src/app.py lines 94-99): strip trailing slashes,
split on the slash, and take the last two path parts if there are at
least five. -/
def extractGithubInfo (url : String) : Option String × Option String
  :=
  let parts := pySplit (pyRstrip url '/') "/"
  if parts.length ≥ 5 then
    (parts.get? (parts.length - 2), parts.get? (parts.length - 1))
  else (none, none)

/-- Python str() of an optional string, as an f-string renders owner and
repo (None prints as None). -/
def pyStrOpt : Option String → String
  | some s => s
  | none => "None"

/-- The result dict of process_github_repo. -/
structure GithubResult where
  owner : Option String
  repo : Option String
  url : String
  title : String
  readme : String
  imagePath : String
  processedDate : String
deriving DecidableEq, Repr

/-- The except clause of process_github_repo (src/app.py lines 205-208):
a rate-limit message is rewritten, anything else is wrapped. -/
def githubWrapError (e : String) : String :=
  if pyIn "rate limit exceeded" (pyLower e) then
    "OpenAI API rate limit exceeded. Please try again in about an hour."
  else "Error analyzing repository: " ++ e

/-- process_github_repo (src/app.py lines 175-208).  The generated image
path comes from the generate_ai_image collaborator (prompt and file name
to path).  A falsy README content (absent, or present but empty) raises
inside the try block and is re-raised wrapped.  The cache file store is
threaded through unchanged: the GitHub path contains no cache access. -/
def processGithubRepo (readmeStatus : Nat) (readmeDecoded : String)
    (genImage : String → String → String) (now : String)
    (fs : FS) (url : String) : Except String GithubResult × FS :=
  let info := extractGithubInfo url
  let bad :=
    match getReadme readmeStatus readmeDecoded with
    | none => true
    | some r => r.isEmpty
  if bad then
    (.error (githubWrapError "README not found in the repository"), fs)
  else
    let readme := (getReadme readmeStatus readmeDecoded).getD ""
    let names := pyStrOpt info.1 ++ "/" ++ pyStrOpt info.2
    let prompt := "A visual representation of " ++ names ++ " repository: " ++ pyTake readme 200
    let imagePath := genImage prompt (pyStrOpt info.1 ++ "_" ++ pyStrOpt info.2 ++ "_image.png")
    (.ok { owner := info.1, repo := info.2, url := url,
           title := names ++ " README", readme := readme,
           imagePath := imagePath, processedDate := now }, fs)

/-! ## Video pipeline (src/app.py process_video and the audio fallback) -/

/-- VideoProcessor.transcribe_audio (src/utils/video_processor.py lines
405-419): raises when the audio file is gone, otherwise forwards the
Whisper collaborator result, wrapping its failure message. -/
def transcribeAudio (audioFileExists : Bool) (whisper : Except String String) :
    Except String String :=
  if !audioFileExists then .error "Audio file not found"
  else
    match whisper with
    | .ok t => .ok t
    | .error e => .error ("Error transcribing audio: " ++ e)

/-- The audio fallback of process_video (src/app.py lines 136-142):
download the audio (download_audio raises when no file was produced),
transcribe it, then os.remove the temporary file.  The Bool of the result
is whether the temporary audio file still exists when the operation
returns or raises: the remove on line 142 runs only after a transcription
that did not raise. -/
def fallbackTranscribe (downloadOk : Bool) (whisper : Except String String) :
    Except String String × Bool :=
  if downloadOk then
    match transcribeAudio true whisper with
    | .ok t => (.ok t, false)
    | .error e => (.error e, true)
  else
    (.error "Error downloading audio: Could not generate audio file", false)

/-- The upstream calls process_video can make, in order: the yt-dlp
metadata fetch, the captions fetch, the audio download, the Whisper
transcription, and the batch of summarization model calls issued by
process_content. -/
inductive UpstreamCall where
  | videoInfoFetch
  | transcriptFetch
  | audioDownload
  | speechToText
  | modelCalls
deriving DecidableEq, Repr

/-- The cache-format patching of process_video on a cache hit
(src/app.py lines 109-115): add a missing type field, and flatten the old
chapters format that nested the list under a chapters key. -/
def patchCached (j : Json) : Json :=
  let j1 := if objHasKey j "type" then j else objSet j "type" (.str "youtube")
  match (objGet j1 "chapters").getD (.obj []) with
  | .obj kvs =>
    match lookupKV kvs "chapters" with
    | some inner => objSet j1 "chapters" inner
    | none => j1
  | _ => j1

/-- The environment of one process_video run: the collaborator answers it
would observe.  get_video_info either raises or returns the metadata
dict; get_transcript returns None on any failure (it catches every
exception). -/
structure VideoEnv where
  videoInfo : Except String Json
  transcriptResult : Option (String × List TSEntry)
  downloadOk : Bool
  whisper : Except String String
  oracles : Oracles
  now : String

/-- The chapters list of the result dict as JSON. -/
def chaptersToJson (cs : List Chapter) : Json :=
  .arr (cs.map (fun c => .obj
    [("timestamp", .str c.timestamp), ("title", .str c.title), ("summary", .str c.summary)]))

/-- The tags list of the result dict as JSON. -/
def tagsToJson (tags : List String) : Json :=
  .arr (tags.map .str)

/-- The tail of process_video (src/app.py lines 146-169): run
process_content, assemble the result dict, save it to the cache and
return it. -/
def finishVideo (env : VideoEnv) (md5hex : String → String) (fs : FS) (url : String)
    (info : Json) (transcript : String) (timestamps : Option (List TSEntry))
    (calls : List UpstreamCall) : Except String Json × FS × List UpstreamCall :=
  let content := processContent env.oracles transcript timestamps
  let record := Json.obj
    [("type", .str "youtube"),
     ("info", objSet info "url" (.str url)),
     ("transcript", .str transcript),
     ("chapters", chaptersToJson content.chapters),
     ("tags", tagsToJson content.tags),
     ("summary", .str content.summary),
     ("video_url", .str url),
     ("processed_date", .str env.now)]
  (.ok record, saveToCache md5hex ".cache" fs url record, calls ++ [.modelCalls])

/-- The cache-miss body of process_video (src/app.py lines 118-173):
metadata fetch, transcript fetch, the audio fallback when the transcript
is falsy, then analysis.  Every raise inside the try block is re-raised
unchanged after clearing the progress bar. -/
def processVideoFresh (env : VideoEnv) (md5hex : String → String) (fs : FS) (url : String) :
    Except String Json × FS × List UpstreamCall :=
  match env.videoInfo with
  | .error e => (.error e, fs, [.videoInfoFetch])
  | .ok info =>
    match env.transcriptResult with
    | some (transcript, timestamps) =>
      if transcript.isEmpty then
        match fallbackTranscribe env.downloadOk env.whisper with
        | (.ok t, _) =>
          finishVideo env md5hex fs url info t none
            [.videoInfoFetch, .transcriptFetch, .audioDownload, .speechToText]
        | (.error e, _) =>
          (.error e, fs, [.videoInfoFetch, .transcriptFetch, .audioDownload, .speechToText])
      else
        finishVideo env md5hex fs url info transcript (some timestamps)
          [.videoInfoFetch, .transcriptFetch]
    | none =>
      match fallbackTranscribe env.downloadOk env.whisper with
      | (.ok t, _) =>
        finishVideo env md5hex fs url info t none
          [.videoInfoFetch, .transcriptFetch, .audioDownload, .speechToText]
      | (.error e, _) =>
        (.error e, fs, [.videoInfoFetch, .transcriptFetch, .audioDownload, .speechToText])

/-- process_video (src/app.py lines 101-173).  The cache is consulted
first; a truthy cached value is patched and returned with no upstream
call.  A raising cache lookup propagates: the lookup sits before the try
block.  The third component logs the upstream calls performed. -/
def processVideo (env : VideoEnv) (md5hex : String → String) (fs : FS) (url : String) :
    Except String Json × FS × List UpstreamCall :=
  match getCachedResult md5hex ".cache" fs url with
  | .error e => (.error e, fs, [])
  | .ok (some cached) =>
    if jsonTruthy cached then (.ok (patchCached cached), fs, [])
    else processVideoFresh env md5hex fs url
  | .ok none => processVideoFresh env md5hex fs url

/-! ## CapacitiesHandler (src/utils/capacities_handler.py)

The handler receives the result dict as a JSON value and talks to the
Capacities API over HTTP; the two endpoints it can hit (asset upload and
weblink creation) are collaborators whose answers sit in CapEnv.  The
call log records each request issued, with the url field of the
create-weblink payload. -/

/-- Python str() of a value interpolated into an f-string.  The records
of this repository interpolate strings and integers; the container repr
is not needed by any verified property and is collapsed to a marker. -/
def pyStr : Json → String
  | .null => "None"
  | .bool true => "True"
  | .bool false => "False"
  | .num n => toString n
  | .str s => s
  | .arr _ => "<list repr>"
  | .obj _ => "<dict repr>"

/-- Python equality of a value against a string literal, as in the
comparisons of _format_content and create_weblink: true exactly for the
equal string. -/
def jsonIsStr : Json → String → Bool
  | .str s, t => s == t
  | _, _ => false

/-- Python d[k] on the record dict: the value, or a raised KeyError
naming the key. -/
def pyDictGet (j : Json) (k : String) : Except String Json :=
  match objGet j k with
  | some v => .ok v
  | none => .error ("KeyError: " ++ k)

/-- Python d.get(k, default) rendered through str(), for the f-string
fields with a string default. -/
def getStrOr (j : Json) (k : String) (dflt : String) : String :=
  match objGet j k with
  | some v => pyStr v
  | none => dflt

/-- The chapter block of the youtube markdown (lines 151-153): one
section per chapter dict, each access raising KeyError when absent. -/
def chapterBlock : List Json → Except String String
  | [] => .ok ""
  | c :: rest => do
    let t ← pyDictGet c "title"
    let ts ← pyDictGet c "timestamp"
    let s ← pyDictGet c "summary"
    let tail ← chapterBlock rest
    return "\n### " ++ pyStr t ++ " (" ++ pyStr ts ++ ")\n" ++ pyStr s ++ "\n" ++ tail

/-- CapacitiesHandler._format_content (lines 132-184): the markdown
document for the weblink.  Item accesses with brackets raise KeyError on
a missing key; .get accesses fall back to their defaults. -/
def formatContent (r : Json) : Except String String := do
  let tv ← pyDictGet r "type"
  if jsonIsStr tv "youtube" then do
    let title ← pyDictGet r "title"
    let author ← pyDictGet r "author"
    let url ← pyDictGet r "url"
    let views ← pyDictGet r "views"
    let length ← pyDictGet r "length"
    let published ← pyDictGet r "publish_date"
    let chaptersVal := (objGet r "chapters").getD (.arr [])
    let chapterPart ←
      match chaptersVal with
      | .arr cs => chapterBlock cs
      | _ => Except.error "TypeError: chapters value is not a list"
    let tagsVal := (objGet r "tags").getD (.arr [])
    let tagsPart ←
      match tagsVal with
      | .arr ts => Except.ok (pyJoin ", " (ts.map (fun t => "#" ++ pyStr t)))
      | _ => Except.error "TypeError: tags value is not a list"
    return "# Video Analysis\n\n## Video Information\n- **Title:** " ++ pyStr title
      ++ "\n- **Author:** " ++ pyStr author
      ++ "\n- **URL:** " ++ pyStr url
      ++ "\n- **Views:** " ++ pyStr views
      ++ "\n- **Length:** " ++ pyStr length ++ " seconds"
      ++ "\n- **Published:** " ++ pyStr published
      ++ "\n\n## Summary\n" ++ getStrOr r "summary" "No summary available"
      ++ "\n\n## Chapters\n" ++ chapterPart
      ++ "\n## Tags\n" ++ tagsPart
      ++ "\n\n---\nAnalyzed on: " ++ getStrOr r "processed_date" "Date not available" ++ "\n"
  else if jsonIsStr tv "github" then do
    let repoName ← pyDictGet r "repo_name"
    let url ← pyDictGet r "url"
    return "# Repository Analysis\n\n## Repository Information\n- **Name:** " ++ pyStr repoName
      ++ "\n- **URL:** " ++ pyStr url
      ++ "\n\n## Summary\n" ++ getStrOr r "summary" "No summary available"
      ++ "\n\n## Full Content\n" ++ getStrOr r "full_content" "No content available"
      ++ "\n\n---\nAnalyzed on: " ++ getStrOr r "processed_date" "Date not available" ++ "\n"
  else
    return "Unsupported content type"

/-- The Capacities collaborator answers for one create_weblink run:
whether the image file the record points at exists on disk, the asset
upload response, and the create-weblink response.  A body of none stands
for a response whose text response.json() fails to parse. -/
structure CapEnv where
  imageFileExists : Bool
  uploadStatus : Nat
  uploadBody : Option Json
  createStatus : Nat
  createBody : Option Json
  createRawText : String

/-- The requests create_weblink issues, in order; the create-note request
carries the url field of its payload. -/
inductive CapCall where
  | imageUpload
  | createNote (urlField : Json)

/-- Whether a logged request is the create-note request. -/
def isCreateNote : CapCall → Bool
  | .createNote _ => true
  | .imageUpload => false

/-- CapacitiesHandler._upload_image (lines 25-61): nothing is sent when
the file is missing; otherwise one upload request, whose 200/201 body
yields result.get(url), any other outcome yielding None. -/
def uploadImage (env : CapEnv) : Option Json × List CapCall :=
  if !env.imageFileExists then (none, [])
  else
    let answer :=
      if env.uploadStatus = 200 ∨ env.uploadStatus = 201 then
        match env.uploadBody with
        | some body => objGet body "url"
        | none => none
      else none
    (answer, [.imageUpload])

/-- The preview image resolution of create_weblink (lines 68-78):
youtube records use the thumbnail_url value directly; github records
with a truthy image_path upload the generated image first. -/
def resolveImage (env : CapEnv) (r : Json) (tv : Json) : Option Json × List CapCall :=
  if jsonIsStr tv "youtube" then (objGet r "thumbnail_url", [])
  else if jsonIsStr tv "github"
      && (objGet r "image_path").isSome
      && jsonTruthy ((objGet r "image_path").getD .null) then
    uploadImage env
  else (none, [])

/-- The error message assembled for a non-2xx create response (lines
113-121): the status, then the message field of a JSON object body, the
body itself when it is JSON but not an object carrying no message, or
the raw text when the body is not JSON. -/
def createFailureMsg (env : CapEnv) : String :=
  "Failed to create weblink: Status " ++ toString env.createStatus ++
    (match env.createBody with
     | some (.obj kvs) =>
       " - " ++ (match lookupKV kvs "message" with
                 | some m => pyStr m
                 | none => pyStr (.obj kvs))
     | some _ => ""
     | none => " - " ++ env.createRawText)

/-- CapacitiesHandler.create_weblink (lines 63-130).  The markdown
formatting runs first and its KeyError aborts before any request; then
the preview image is resolved; building the payload reads the url field
with brackets (KeyError on absence); exactly one create request is then
issued, a non-200/201 status raising and a 200/201 status returning the
parsed response body.  Every raise is re-wrapped by the outer except
clause. -/
def createWeblink (env : CapEnv) (r : Json) : Except String Json × List CapCall :=
  match formatContent r with
  | .error e => (.error ("Error creating weblink: " ++ e), [])
  | .ok _content =>
    let tv := (objGet r "type").getD .null
    let img := resolveImage env r tv
    match pyDictGet r "url" with
    | .error e => (.error ("Error creating weblink: " ++ e), img.2)
    | .ok _urlVal =>
      let calls := img.2 ++ [.createNote _urlVal]
      if env.createStatus = 200 ∨ env.createStatus = 201 then
        match env.createBody with
        | some body => (.ok body, calls)
        | none => (.error "Error creating weblink: response body is not valid JSON", calls)
      else
        (.error ("Error creating weblink: " ++ createFailureMsg env), calls)

/-! ## Concrete fixtures used by witnesses and counterexamples -/

/-- A concrete stand-in for the md5 hex digest function (its only
properties used by the code are determinism and producing a file name). -/
def md5Ex : String → String := fun _ => "0123abcd"

/-- An empty cache directory. -/
def fsEmptyEx : FS := fun _ => none

/-- A cache directory whose file for the md5Ex key parses to null. -/
def fsValidEx : FS :=
  fun name => if name = ".cache/0123abcd.json" then some (.valid .null) else none

/-- A cache directory whose file for the md5Ex key is corrupt. -/
def fsCorruptEx : FS :=
  fun name => if name = ".cache/0123abcd.json" then some .corrupt else none

/-- Model oracles returning fixed one-character answers. -/
def oUnit : Oracles :=
  { chaptersLLM := fun _ => "c", tagsLLM := fun _ => "t",
    summaryLLM := fun _ => "s", sumLLM := fun _ => "z" }

/-- Model oracles whose tag response contains the same word twice with
different capitalization. -/
def oTagsEx : Oracles :=
  { chaptersLLM := fun _ => "c", tagsLLM := fun _ => "Python, python",
    summaryLLM := fun _ => "s", sumLLM := fun _ => "z" }

/-- The combined character count of the sentences of a chunk (the
quantity the chunking loop of process_content tracks as current_size). -/
def sentLenSum (c : List String) : Nat :=
  (c.map String.length).sum

/-- A transcript that is one sentence of 4001 characters: long enough to
trigger chunking, with no sentence boundary to split at. -/
def longSentenceEx : String := String.mk (List.replicate 4001 'a')

/-- The result record a first process_video run on the URL u writes with
the envW collaborator answers. -/
def rW : Json := Json.obj
  [("type", .str "youtube"),
   ("info", .obj [("url", .str "u")]),
   ("transcript", .str "hi"),
   ("chapters", .arr [.obj [("timestamp", .str "00:00:01"), ("title", .str "z..."), ("summary", .str "z")]]),
   ("tags", .arr [.str "t"]),
   ("summary", .str "s"),
   ("video_url", .str "u"),
   ("processed_date", .str "2026-01-01")]

/-- Concrete collaborator answers for a successful first video request. -/
def envW : VideoEnv :=
  { videoInfo := .ok (Json.obj []),
    transcriptResult := some ("hi", [⟨"00:00:01", "hi"⟩]),
    downloadOk := true,
    whisper := .error "unused",
    oracles := oUnit,
    now := "2026-01-01" }

/-- Capacities collaborator answers with a 200 create response. -/
def capEnvEx : CapEnv :=
  { imageFileExists := false, uploadStatus := 500, uploadBody := none,
    createStatus := 200, createBody := some .null, createRawText := "" }

/-- Capacities collaborator answers with a 404 create response. -/
def capEnv404 : CapEnv :=
  { imageFileExists := false, uploadStatus := 500, uploadBody := none,
    createStatus := 404, createBody := none, createRawText := "not found" }

/-- A youtube record carrying the flat top-level fields the Capacities
handler reads (title, author, url, views, length, publish_date). -/
def rC8 : Json := Json.obj
  [("type", .str "youtube"), ("title", .str "T"), ("author", .str "A"),
   ("url", .str "u8"), ("views", .num 5), ("length", .num 60),
   ("publish_date", .str "2026-01-02"), ("summary", .str "s"),
   ("chapters", .arr []), ("tags", .arr [.str "t"]),
   ("processed_date", .str "d"), ("thumbnail_url", .str "th")]

/-! ## Theorems -/

/-- Writing a file and reading the same name gives the written data. -/
theorem fsSet_get_same (fs : FS) (name : String) (d : FileData) :
    fsSet fs name d name = some d := by
  simp [fsSet]

/-- Claim C1, counterexample: with a cache file present for the key of
the URL but holding corrupt content, CacheManager.get_cached_result
raises the json.load error instead of returning None. -/
theorem cacheLookup_corrupt_raises :
    getCachedResult md5Ex ".cache" fsCorruptEx "http://v" =
      .error "json.JSONDecodeError: cache file content is not valid JSON" := by
  rfl

/-- Claim C1 (amended): lookup returns None when the cache file for the
key of the URL is absent, and the stored value when it parses; but when
the file is present with corrupt or unreadable content the json.load
error propagates to the caller, and that is the only way lookup raises. -/
theorem cacheLookup_amended_spec (md5hex : String → String) (dir url : String) (fs : FS) :
    (fs (cacheFileName dir (getCacheKey md5hex url)) = none →
      getCachedResult md5hex dir fs url = .ok none)
    ∧ (∀ j, fs (cacheFileName dir (getCacheKey md5hex url)) = some (.valid j) →
      getCachedResult md5hex dir fs url = .ok (some j))
    ∧ ((∃ e, getCachedResult md5hex dir fs url = .error e) ↔
      fs (cacheFileName dir (getCacheKey md5hex url)) = some .corrupt) := by
  unfold getCachedResult
  refine ⟨fun h => by rw [h], fun j h => by rw [h], ?_⟩
  constructor
  · rintro ⟨e, he⟩
    rcases hv : fs (cacheFileName dir (getCacheKey md5hex url)) with _ | d
    · rw [hv] at he; exact absurd he (by simp)
    · cases d with
      | valid j => rw [hv] at he; exact absurd he (by simp)
      | corrupt => rfl
  · intro h
    rw [h]
    exact ⟨_, rfl⟩

/-- Witness for claim C1: the three cases of the amended statement at
concrete stores. -/
theorem cacheLookup_amended_spec_witness :
    getCachedResult md5Ex ".cache" fsEmptyEx "u" = .ok none
    ∧ getCachedResult md5Ex ".cache" fsValidEx "u" = .ok (some .null)
    ∧ ∃ e, getCachedResult md5Ex ".cache" fsCorruptEx "u" = .error e :=
  ⟨(cacheLookup_amended_spec md5Ex ".cache" "u" fsEmptyEx).1 rfl,
   (cacheLookup_amended_spec md5Ex ".cache" "u" fsValidEx).2.1 .null rfl,
   (cacheLookup_amended_spec md5Ex ".cache" "u" fsCorruptEx).2.2.mpr rfl⟩

/-- Claim C9: storing a record under a URL and looking the same URL up
with no intervening store returns the stored record: both operations
build the same file name from the same deterministic hash of the raw URL
string, and the dump/load round trip is the identity on serializable
values. -/
theorem cache_store_lookup_roundtrip (md5hex : String → String) (dir url : String)
    (fs : FS) (r : Json) :
    getCachedResult md5hex dir (saveToCache md5hex dir fs url r) url = .ok (some r) := by
  unfold getCachedResult saveToCache
  rw [fsSet_get_same]

/-- Claim C6, counterexample: on the fallback path with a failing
transcription, process_video propagates the error while the temporary
audio file still exists; the os.remove on src/app.py line 142 is not
reached. -/
theorem fallback_no_cleanup_on_failure :
    fallbackTranscribe true (.error "api down") =
      (.error "Error transcribing audio: api down", true) := by
  rfl

/-- Claim C6 (amended): on the fallback path the temporary audio file is
deleted when the transcription attempt succeeds, but when
transcribe_audio raises, the exception propagates and the temporary file
is not removed. -/
theorem fallback_cleanup_amended_spec (whisper : Except String String) :
    (∀ t, whisper = .ok t → fallbackTranscribe true whisper = (.ok t, false))
    ∧ (∀ e, whisper = .error e →
      fallbackTranscribe true whisper =
        (.error ("Error transcribing audio: " ++ e), true)) := by
  constructor
  · rintro t rfl; rfl
  · rintro e rfl; rfl

/-- Witness for claim C6: both branches of the amended statement at
concrete transcription outcomes. -/
theorem fallback_cleanup_amended_spec_witness :
    fallbackTranscribe true (.ok "hello") = (.ok "hello", false)
    ∧ fallbackTranscribe true (.error "x") =
      (.error ("Error transcribing audio: " ++ "x"), true) :=
  ⟨(fallback_cleanup_amended_spec (.ok "hello")).1 "hello" rfl,
   (fallback_cleanup_amended_spec (.error "x")).2 "x" rfl⟩

/-- Inserting into the list model of a Python set keeps it duplicate
free. -/
theorem setInsert_nodup {l : List String} (x : String) (h : l.Nodup) :
    (setInsert l x).Nodup := by
  unfold setInsert
  split
  · exact h
  · next hx => simp [List.nodup_append, h, hx]

/-- Updating the list model of a Python set with any iterable keeps it
duplicate free. -/
theorem setUpdate_nodup (xs : List String) {l : List String} (h : l.Nodup) :
    (setUpdate l xs).Nodup := by
  induction xs generalizing l with
  | nil => exact h
  | cons x xs ih => exact ih (setInsert_nodup x h)

/-- The tag component of the per-chunk fold stays duplicate free from
any duplicate-free start. -/
theorem chunkFold_tags_nodup {α : Type} (f : α → List Chapter) (g : α → List String)
    (h : α → String) :
    ∀ (l : List α) (acc : List Chapter × List String × List String), acc.2.1.Nodup →
      ((l.foldl (fun a x => (a.1 ++ f x, setUpdate a.2.1 (g x), a.2.2 ++ [h x])) acc).2.1).Nodup := by
  intro l
  induction l with
  | nil => intro acc hacc; exact hacc
  | cons x xs ih =>
    intro acc hacc
    exact ih _ (setUpdate_nodup _ hacc)

/-- Claim C2 (amended): for every input text the tags list of the
process_content result has at most ten entries and no two equal entries;
the deduplication is the exact string equality of the Python set, so it
is case sensitive (see the counterexample for the case-insensitive
reading). -/
theorem tags_bounded_and_nodup (o : Oracles) (t : String) (ts : Option (List TSEntry)) :
    (processContent o t ts).tags.length ≤ 10 ∧ (processContent o t ts).tags.Nodup := by
  have h : (processContent o t ts).tags =
      (processChunks o ts (splitChunks t)).2.1.take 10 := rfl
  constructor
  · rw [h]
    simp [List.length_take]
  · rw [h]
    apply List.Nodup.sublist (List.take_sublist 10 _)
    have := chunkFold_tags_nodup
      (fun c => genChapters o c (if (splitChunks t).length = 1 then ts else none))
      (fun c => (genTags o c).map pyStrip) (genSummary o)
      (splitChunks t) ([], [], []) (by simp)
    exact this

/-- Claim C2, counterexample: a model response naming the same tag twice
with different capitalization survives the Python set; the tags list
then contains two entries equal up to lowering, so the case-insensitive
reading of deduplication fails. -/
theorem tags_case_insensitive_dup :
    "Python" ∈ (processContent oTagsEx "t" none).tags
    ∧ "python" ∈ (processContent oTagsEx "t" none).tags
    ∧ pyLower "Python" = pyLower "python" := by
  refine ⟨?_, ?_, ?_⟩ <;> decide

/-- Claim C3: for every transcript processed together with a non-empty
timestamps list, the chapters list of the process_content result is
non-decreasing in the timestamp key the final sort uses. -/
theorem chapters_sorted (o : Oracles) (t : String) (ts : List TSEntry) (_hne : ts ≠ []) :
    (processContent o t (some ts)).chapters.Pairwise chapterLe := by
  have h : (processContent o t (some ts)).chapters =
      List.insertionSort chapterLe (processChunks o (some ts) (splitChunks t)).1 := rfl
  rw [h]
  exact List.sorted_insertionSort chapterLe _

/-- Witness for claim C3 at a concrete transcript and timestamps list. -/
theorem chapters_sorted_witness :
    (processContent oUnit "hi" (some [⟨"00:00:01", "hi"⟩])).chapters.Pairwise chapterLe :=
  chapters_sorted oUnit "hi" [⟨"00:00:01", "hi"⟩] (by simp)

/-- Claim C5: a GitHub repository URL whose README endpoint answers with
a non-200 status makes process_github_repo raise the wrapped
README-not-found error, and the cache store is returned unchanged: the
GitHub path never writes a cache entry. -/
theorem github_no_readme_fails_soft (status : Nat) (h : status ≠ 200)
    (decoded : String) (genImage : String → String → String) (now : String)
    (fs : FS) (url : String) :
    processGithubRepo status decoded genImage now fs url =
      (.error "Error analyzing repository: README not found in the repository", fs) := by
  have hwrap : githubWrapError "README not found in the repository" =
      "Error analyzing repository: README not found in the repository" := by decide
  unfold processGithubRepo
  simp [getReadme, h, hwrap]

/-- Witness for claim C5: a concrete 404 on the README endpoint. -/
theorem github_no_readme_fails_soft_witness :
    processGithubRepo 404 "" (fun _ _ => "") "2026-01-01" fsEmptyEx "https://github.com/acme/widget" =
      (.error "Error analyzing repository: README not found in the repository", fsEmptyEx) :=
  github_no_readme_fails_soft 404 (by decide) "" (fun _ _ => "") "2026-01-01" fsEmptyEx
    "https://github.com/acme/widget"

set_option maxRecDepth 2000 in
/-- For values below 100, the printed two-digit field is the two decimal
digit characters. -/
theorem pad2_data : ∀ n, n < 100 →
    (pad2 n).data = [Nat.digitChar (n / 10), Nat.digitChar (n % 10)] := by
  decide

/-- Decimal digit characters compare like the digits they print. -/
theorem digitChar_lt_iff : ∀ a, a < 10 → ∀ b, b < 10 →
    (Nat.digitChar a < Nat.digitChar b ↔ a < b) := by
  decide

/-- A lexicographic comparison of equal-length prefixes decides the
comparison of the concatenations. -/
theorem lex_append_sameLen {r : Char → Char → Prop} :
    ∀ {xs ys : List Char}, xs.length = ys.length → List.Lex r xs ys →
      ∀ (as bs : List Char), List.Lex r (xs ++ as) (ys ++ bs) := by
  intro xs ys hlen hlex
  induction hlex with
  | nil => simp at hlen
  | @cons a l₁ l₂ h ih => intro as bs; exact List.Lex.cons (ih (by simpa using hlen) as bs)
  | rel h => intro as bs; exact List.Lex.rel h

/-- A lexicographic comparison behind an equal prefix decides the
comparison of the concatenations. -/
theorem lex_append_samePre {r : Char → Char → Prop} :
    ∀ (xs : List Char) {ys zs : List Char}, List.Lex r ys zs →
      List.Lex r (xs ++ ys) (xs ++ zs) := by
  intro xs
  induction xs with
  | nil => intro ys zs h; simpa using h
  | cons x xs ih => intro ys zs h; exact List.Lex.cons (ih h)

/-- Two-digit fields compare lexicographically like their values. -/
theorem pad2_lex {a b : Nat} (hab : a < b) (hb : b < 100) :
    List.Lex (· < ·) (pad2 a).data (pad2 b).data := by
  have ha : a < 100 := lt_trans hab hb
  rw [pad2_data a ha, pad2_data b hb]
  rcases Nat.lt_or_ge (a / 10) (b / 10) with hq | hq
  · exact List.Lex.rel ((digitChar_lt_iff _ (by omega) _ (by omega)).mpr hq)
  · have hqe : a / 10 = b / 10 := by omega
    have hr : a % 10 < b % 10 := by omega
    rw [hqe]
    exact List.Lex.cons (List.Lex.rel ((digitChar_lt_iff _ (by omega) _ (by omega)).mpr hr))

/-- The characters of a formatted timestamp are the three two-digit
fields joined by colons. -/
theorem formatTimestamp_data (s : Nat) :
    (formatTimestamp s).data =
      (pad2 (s / 3600)).data ++ ':' ::
        ((pad2 (s % 3600 / 60)).data ++ ':' :: (pad2 (s % 60)).data) := by
  have hc : (":" : String).data = [':'] := rfl
  simp [formatTimestamp, hc]

/-- Claim C10: below 100 hours, _format_timestamp returns the zero-padded
HH:MM:SS rendering of the hour, minute and second fields, and the
rendering is strictly monotone for the lexicographic string order, so
that sorting chapters by the formatted string agrees with sorting by the
underlying number of seconds. -/
theorem formatTimestamp_spec :
    (∀ s : Nat, s < 360000 → (formatTimestamp s).data =
      [Nat.digitChar (s / 3600 / 10), Nat.digitChar (s / 3600 % 10), ':',
       Nat.digitChar (s % 3600 / 60 / 10), Nat.digitChar (s % 3600 / 60 % 10), ':',
       Nat.digitChar (s % 60 / 10), Nat.digitChar (s % 60 % 10)])
    ∧ (∀ s1 s2 : Nat, s1 < 360000 → s2 < 360000 → s1 < s2 →
      formatTimestamp s1 < formatTimestamp s2) := by
  constructor
  · intro s hs
    rw [formatTimestamp_data, pad2_data _ (by omega), pad2_data _ (by omega),
      pad2_data _ (by omega)]
    rfl
  · intro s1 s2 h1 h2 hlt
    rw [String.lt_iff_toList_lt]
    show List.Lex (· < ·) (formatTimestamp s1).data (formatTimestamp s2).data
    rw [formatTimestamp_data, formatTimestamp_data]
    have hh2 : s2 / 3600 < 100 := by omega
    have hcase : s1 / 3600 < s2 / 3600
        ∨ (s1 / 3600 = s2 / 3600 ∧ (s1 % 3600 / 60 < s2 % 3600 / 60
          ∨ (s1 % 3600 / 60 = s2 % 3600 / 60 ∧ s1 % 60 < s2 % 60))) := by omega
    rcases hcase with hq | ⟨hq, hm⟩
    · exact lex_append_sameLen
        (by rw [pad2_data _ (by omega), pad2_data _ hh2]; rfl) (pad2_lex hq hh2) _ _
    · rw [hq]
      apply lex_append_samePre
      apply List.Lex.cons
      rcases hm with hm | ⟨hm, hs⟩
      · exact lex_append_sameLen
          (by rw [pad2_data _ (by omega), pad2_data _ (by omega)]; rfl)
          (pad2_lex hm (by omega)) _ _
      · rw [hm]
        apply lex_append_samePre
        apply List.Lex.cons
        exact pad2_lex hs (by omega)

/-- Witness for claim C10 at 59 and 61 seconds. -/
theorem formatTimestamp_spec_witness :
    (formatTimestamp 59).data =
      [Nat.digitChar (59 / 3600 / 10), Nat.digitChar (59 / 3600 % 10), ':',
       Nat.digitChar (59 % 3600 / 60 / 10), Nat.digitChar (59 % 3600 / 60 % 10), ':',
       Nat.digitChar (59 % 60 / 10), Nat.digitChar (59 % 60 % 10)]
    ∧ formatTimestamp 59 < formatTimestamp 61 :=
  ⟨formatTimestamp_spec.1 59 (by decide),
   formatTimestamp_spec.2 59 61 (by decide) (by decide) (by decide)⟩

/-- The chunking step never flushes while the current chunk is empty. -/
theorem chunkStep_emptyCurrent (chunks : List (List String)) (size : Nat) (s : String) :
    chunkStep (chunks, [], size) s = (chunks, [s], size + s.length) := by
  simp [chunkStep]

/-- A single sentence becomes a single chunk. -/
theorem sentenceChunks_single (s : String) : sentenceChunks [s] = [[s]] := by
  simp [sentenceChunks, chunkStep]

/-- Joining a one-sentence chunk appends only the closing period. -/
theorem joinChunk_single (s : String) : joinChunk [s] = s ++ "." := by
  simp [joinChunk, pyJoin, List.intercalate, List.intersperse]

/-- A run of letters contains no sentence separator. -/
theorem findSep_dotSpace_replicate (n : Nat) :
    findSep ['.', ' '] (List.replicate n 'a') = none := by
  induction n with
  | zero => rfl
  | succ n ih =>
    rw [List.replicate_succ]
    simp [findSep, List.isPrefixOf, ih]

/-- With no separator occurrence the split returns the whole input,
whatever the fuel. -/
theorem splitSepFuel_none (sep : List Char) (fuel : Nat) (l : List Char)
    (h : findSep sep l = none) : splitSepFuel sep fuel l = [l] := by
  cases fuel <;> simp [splitSepFuel, h]

/-- The length of the 4001-letter sentence. -/
theorem longSentenceEx_length : longSentenceEx.length = 4001 := by
  show (List.replicate 4001 'a').length = 4001
  rw [List.length_replicate]

/-- Claim C4, counterexample: a 4001-character transcript with no
sentence boundary is chunked into a single chunk of 4002 characters, so
the chunks are not bounded by the threshold. -/
theorem chunk_exceeds_threshold :
    ∃ c ∈ splitChunks longSentenceEx, maxChunkSize < c.length := by
  have hdata : longSentenceEx.data = List.replicate 4001 'a' := rfl
  have hsplit : pySplit longSentenceEx ". " = [longSentenceEx] := by
    show (splitSep (". ").data longSentenceEx.data).map String.mk = [longSentenceEx]
    rw [hdata]
    show (splitSep ['.', ' '] (List.replicate 4001 'a')).map String.mk = [longSentenceEx]
    unfold splitSep
    rw [if_neg (by decide)]
    rw [splitSepFuel_none _ _ _ (findSep_dotSpace_replicate _)]
    rfl
  have hchunks : splitChunks longSentenceEx = [longSentenceEx ++ "."] := by
    unfold splitChunks
    rw [if_pos (by rw [longSentenceEx_length]; decide)]
    rw [hsplit, sentenceChunks_single, List.map_singleton, joinChunk_single]
  refine ⟨longSentenceEx ++ ".", by rw [hchunks]; exact List.mem_singleton.mpr rfl, ?_⟩
  have h2 : (longSentenceEx ++ ".").length = 4002 := by
    rw [String.length_append, longSentenceEx_length]
    rfl
  rw [h2]
  decide

/-- The invariant of the chunking loop: every closed chunk is a single
sentence or fits the threshold, and the tracked size is the sentence
length sum of the current chunk, which itself satisfies the bound. -/
theorem chunkFold_inv (sentences : List String) :
    ∀ (acc : List (List String) × List String × Nat),
      (∀ c ∈ acc.1, c.length = 1 ∨ sentLenSum c ≤ maxChunkSize) →
      acc.2.2 = sentLenSum acc.2.1 →
      (acc.2.1.length = 1 ∨ sentLenSum acc.2.1 ≤ maxChunkSize) →
      (∀ c ∈ (sentences.foldl chunkStep acc).1, c.length = 1 ∨ sentLenSum c ≤ maxChunkSize)
        ∧ (sentences.foldl chunkStep acc).2.2 = sentLenSum (sentences.foldl chunkStep acc).2.1
        ∧ ((sentences.foldl chunkStep acc).2.1.length = 1
            ∨ sentLenSum (sentences.foldl chunkStep acc).2.1 ≤ maxChunkSize) := by
  induction sentences with
  | nil => intro acc h1 h2 h3; exact ⟨h1, h2, h3⟩
  | cons s rest ih =>
    intro acc h1 h2 h3
    rw [List.foldl_cons]
    rcases hacc : acc with ⟨chunks, current, size⟩
    rcases hacc ▸ h1 with h1'
    rcases hacc ▸ h2 with h2'
    rcases hacc ▸ h3 with h3'
    by_cases hcur : current = []
    · subst hcur
      rw [chunkStep_emptyCurrent]
      apply ih
      · exact h1'
      · simp [sentLenSum] at h2' ⊢
        omega
      · left; rfl
    · unfold chunkStep
      by_cases hover : size + s.length > maxChunkSize
      · have hcond : (size + s.length > maxChunkSize && !List.isEmpty current) = true := by
          simp [hover, List.isEmpty_iff, hcur]
        simp only [hcond]
        apply ih
        · intro c hc
          rcases List.mem_append.mp hc with hc | hc
          · exact h1' c hc
          · rw [List.mem_singleton] at hc
            subst hc; exact h3'
        · simp [sentLenSum]
        · left; rfl
      · have hcond : (size + s.length > maxChunkSize && !List.isEmpty current) = false := by
          simp [hover]
        simp only [hcond]
        apply ih
        · exact h1'
        · simp [sentLenSum, List.map_append] at h2' ⊢
          omega
        · right
          simp [sentLenSum, List.map_append] at h2' ⊢
          omega

/-- Every chunk the sentence-chunking loop emits is a single sentence or
has a sentence length sum within the threshold. -/
theorem sentenceChunks_bound (sentences : List String) :
    ∀ c ∈ sentenceChunks sentences, c.length = 1 ∨ sentLenSum c ≤ maxChunkSize := by
  have h := chunkFold_inv sentences ([], [], 0) (by simp) (by simp [sentLenSum])
    (by right; simp [sentLenSum, maxChunkSize])
  intro c hc
  unfold sentenceChunks at hc
  dsimp only at hc
  split at hc
  · rcases List.mem_append.mp hc with hc | hc
    · exact h.1 c hc
    · rw [List.mem_singleton] at hc
      subst hc; exact h.2.2
  · exact h.1 c hc

/-- The per-chunk fold in map form: chapters are the flattened per-chunk
chapter lists, tags the set union of the per-chunk tag lists, summaries
the per-chunk summaries in order. -/
theorem chunkFold_eq {α : Type} (f : α → List Chapter) (g : α → List String) (h : α → String) :
    ∀ (l : List α) (acc : List Chapter × List String × List String),
      l.foldl (fun a x => (a.1 ++ f x, setUpdate a.2.1 (g x), a.2.2 ++ [h x])) acc =
        (acc.1 ++ (l.map f).flatten,
         l.foldl (fun b x => setUpdate b (g x)) acc.2.1,
         acc.2.2 ++ l.map h) := by
  intro l
  induction l with
  | nil => intro acc; simp
  | cons x xs ih =>
    intro acc
    rw [List.foldl_cons, ih]
    simp [List.append_assoc]

/-- processChunks in map form. -/
theorem processChunks_eq (o : Oracles) (ts : Option (List TSEntry)) (chunks : List String) :
    processChunks o ts chunks =
      ((chunks.map (fun c => genChapters o c (if chunks.length = 1 then ts else none))).flatten,
       chunks.foldl (fun b c => setUpdate b ((genTags o c).map pyStrip)) [],
       chunks.map (genSummary o)) := by
  unfold processChunks
  rw [chunkFold_eq (fun c => genChapters o c (if chunks.length = 1 then ts else none))
    (fun c => (genTags o c).map pyStrip) (genSummary o) chunks ([], [], [])]
  simp

/-- Claim C4 (amended): an input text over the threshold is split at
sentence boundaries and re-chunked greedily; every chunk is a single
sentence or has sentences totalling at most the threshold (a chunk can
exceed the threshold in characters, through an oversized single sentence
or through the re-inserted separators); each chunk is summarized and
tagged independently; chapters are the concatenated per-chunk chapters
sorted by timestamp; tags are the set union of the per-chunk tags cut to
ten; and the final summary re-summarizes the joined per-chunk summaries
with one extra model call exactly when more than one chunk was produced,
a single chunk returning its own summary. -/
theorem process_content_chunking_spec (o : Oracles) (t : String) (ts : Option (List TSEntry))
    (hlong : t.length > maxChunkSize) :
    splitChunks t = (sentenceChunks (pySplit t ". ")).map joinChunk
    ∧ (∀ c ∈ sentenceChunks (pySplit t ". "), c.length = 1 ∨ sentLenSum c ≤ maxChunkSize)
    ∧ (processContent o t ts).chapters = List.insertionSort chapterLe
        (((splitChunks t).map (fun c => genChapters o c
            (if (splitChunks t).length = 1 then ts else none))).flatten)
    ∧ (processContent o t ts).tags = ((splitChunks t).foldl
        (fun b c => setUpdate b ((genTags o c).map pyStrip)) []).take 10
    ∧ (processContent o t ts).summary =
        (if ((splitChunks t).map (genSummary o)).length > 1
          then genSummary o (pyJoin "\n" ((splitChunks t).map (genSummary o)))
          else ((splitChunks t).map (genSummary o)).headD "") := by
  refine ⟨?_, sentenceChunks_bound _, ?_, ?_, ?_⟩
  · unfold splitChunks
    rw [if_pos hlong]
  · have hc : (processContent o t ts).chapters =
        List.insertionSort chapterLe (processChunks o ts (splitChunks t)).1 := rfl
    rw [hc, processChunks_eq]
  · have hc : (processContent o t ts).tags =
        (processChunks o ts (splitChunks t)).2.1.take 10 := rfl
    rw [hc, processChunks_eq]
  · have hc : (processContent o t ts).summary =
        (if (processChunks o ts (splitChunks t)).2.2.length > 1
          then genSummary o (pyJoin "\n" (processChunks o ts (splitChunks t)).2.2)
          else (processChunks o ts (splitChunks t)).2.2.headD "") := rfl
    rw [hc, processChunks_eq]

/-- Witness for claim C4 at the concrete over-threshold transcript. -/
theorem process_content_chunking_spec_witness :
    splitChunks longSentenceEx = (sentenceChunks (pySplit longSentenceEx ". ")).map joinChunk
    ∧ (∀ c ∈ sentenceChunks (pySplit longSentenceEx ". "),
        c.length = 1 ∨ sentLenSum c ≤ maxChunkSize)
    ∧ (processContent oUnit longSentenceEx none).chapters = List.insertionSort chapterLe
        (((splitChunks longSentenceEx).map (fun c => genChapters oUnit c
            (if (splitChunks longSentenceEx).length = 1 then none else none))).flatten)
    ∧ (processContent oUnit longSentenceEx none).tags = ((splitChunks longSentenceEx).foldl
        (fun b c => setUpdate b ((genTags oUnit c).map pyStrip)) []).take 10
    ∧ (processContent oUnit longSentenceEx none).summary =
        (if ((splitChunks longSentenceEx).map (genSummary oUnit)).length > 1
          then genSummary oUnit (pyJoin "\n" ((splitChunks longSentenceEx).map (genSummary oUnit)))
          else ((splitChunks longSentenceEx).map (genSummary oUnit)).headD "") :=
  process_content_chunking_spec oUnit longSentenceEx none
    (by rw [longSentenceEx_length]; decide)

/-- The save/lookup round trip used by the cache-hit argument. -/
theorem getCached_after_save (md5hex : String → String) (dir url : String)
    (fs : FS) (r : Json) :
    getCachedResult md5hex dir (saveToCache md5hex dir fs url r) url = .ok (some r) := by
  unfold getCachedResult saveToCache
  rw [fsSet_get_same]

/-- A successful finishVideo run stores the record it returns, and that
record is truthy and a fixed point of the cache-format patch. -/
theorem finishVideo_ok (env : VideoEnv) (md5hex : String → String) (fs : FS) (url : String)
    (info : Json) (transcript : String) (timestamps : Option (List TSEntry))
    (calls : List UpstreamCall) (r : Json) (fs2 : FS) (cs : List UpstreamCall)
    (h : finishVideo env md5hex fs url info transcript timestamps calls = (.ok r, fs2, cs)) :
    fs2 = saveToCache md5hex ".cache" fs url r ∧ jsonTruthy r = true ∧ patchCached r = r := by
  unfold finishVideo at h
  rw [Prod.mk.injEq, Prod.mk.injEq] at h
  obtain ⟨h1, h2, h3⟩ := h
  rw [Except.ok.injEq] at h1
  subst h1
  refine ⟨h2.symm, rfl, ?_⟩
  simp [patchCached, objHasKey, objGet, lookupKV, chaptersToJson]

/-- Every successful fresh run of process_video ends in finishVideo, so
its record is stored, truthy and patch-stable. -/
theorem processVideoFresh_ok (env : VideoEnv) (md5hex : String → String) (fs : FS)
    (url : String) (r : Json) (fs2 : FS) (cs : List UpstreamCall)
    (h : processVideoFresh env md5hex fs url = (.ok r, fs2, cs)) :
    fs2 = saveToCache md5hex ".cache" fs url r ∧ jsonTruthy r = true ∧ patchCached r = r := by
  unfold processVideoFresh at h
  split at h
  · simp at h
  · split at h
    · split at h
      · split at h
        · exact finishVideo_ok _ _ _ _ _ _ _ _ _ _ _ h
        · simp at h
      · exact finishVideo_ok _ _ _ _ _ _ _ _ _ _ _ h
    · split at h
      · exact finishVideo_ok _ _ _ _ _ _ _ _ _ _ _ h
      · simp at h

/-- Claim C7: after any first process_video request on a URL that
returned successfully (so the cache file was written, or an existing
entry was served), a second request on the same URL returns the same
record value and performs no upstream call: no metadata fetch, no
transcript fetch, no audio download, no transcription, no model call. -/
theorem cached_second_request (env1 env2 : VideoEnv) (md5hex : String → String)
    (fs fs1 : FS) (url : String) (r : Json) (calls : List UpstreamCall)
    (h : processVideo env1 md5hex fs url = (.ok r, fs1, calls)) :
    processVideo env2 md5hex fs1 url = (.ok r, fs1, []) := by
  unfold processVideo at h ⊢
  rcases hc : getCachedResult md5hex ".cache" fs url with e | oc
  · rw [hc] at h; simp at h
  · rw [hc] at h
    rcases oc with _ | cached
    · -- cache miss: the fresh path saved the returned record
      dsimp only at h
      obtain ⟨hsave, htruthy, hpatch⟩ := processVideoFresh_ok _ _ _ _ _ _ _ h
      subst hsave
      rw [getCached_after_save]
      simp [htruthy, hpatch]
    · -- cache hit branch of the first request
      dsimp only at h
      split at h
      · next htr =>
        rw [Prod.mk.injEq, Prod.mk.injEq] at h
        obtain ⟨h1, h2, h3⟩ := h
        rw [Except.ok.injEq] at h1
        subst h1
        subst h2
        rw [hc]
        simp [htr]
      · -- falsy cached value: the fresh path ran
        obtain ⟨hsave, htruthy, hpatch⟩ := processVideoFresh_ok _ _ _ _ _ _ _ h
        subst hsave
        rw [getCached_after_save]
        simp [htruthy, hpatch]

/-- Witness for claim C7: the concrete first request writes rW; the
replayed request returns rW from the cache with an empty call log. -/
theorem cached_second_request_witness :
    processVideo envW md5Ex (saveToCache md5Ex ".cache" fsEmptyEx "u" rW) "u" =
      (.ok rW, saveToCache md5Ex ".cache" fsEmptyEx "u" rW, []) :=
  cached_second_request envW envW md5Ex fsEmptyEx
    (saveToCache md5Ex ".cache" fsEmptyEx "u" rW) "u" rW
    [.videoInfoFetch, .transcriptFetch, .modelCalls] (by rfl)

/-- Claim C8, counterexample: on the record process_video itself builds
(flat fields nested under info, url only present as video_url),
create_weblink raises the KeyError from the first f-string access and
issues no request at all, create-note included. -/
theorem createWeblink_no_request_on_app_record :
    (createWeblink capEnvEx rW).2 = []
    ∧ (createWeblink capEnvEx rW).1 = .error "Error creating weblink: KeyError: title" :=
  ⟨rfl, rfl⟩

/-- The preview-image resolution can issue only upload requests, never a
create-note request. -/
theorem resolveImage_no_create (env : CapEnv) (r : Json) (tv : Json) :
    (resolveImage env r tv).2.filter isCreateNote = [] := by
  unfold resolveImage uploadImage
  split
  · rfl
  · split
    · split
      · rfl
      · simp [isCreateNote]
    · rfl

/-- Claim C8 (amended): for every record the markdown formatter accepts
(a record carrying the flat fields the handler reads) that carries a
top-level url field, create_weblink issues exactly one create-note
request and its url payload field is the record url value; a 200 or 201
response returns the parsed response body as the durable reference, and
any non-2xx status makes the call raise. -/
theorem createWeblink_amended_spec (env : CapEnv) (r : Json)
    (hfmt : ∃ content, formatContent r = .ok content)
    (u : Json) (hurl : objGet r "url" = some u) :
    (createWeblink env r).2.filter isCreateNote = [CapCall.createNote u]
    ∧ ((env.createStatus = 200 ∨ env.createStatus = 201) → ∀ b, env.createBody = some b →
        (createWeblink env r).1 = .ok b)
    ∧ (¬ (200 ≤ env.createStatus ∧ env.createStatus < 300) →
        ∃ e, (createWeblink env r).1 = .error e) := by
  obtain ⟨content, hfmt⟩ := hfmt
  have hpd : pyDictGet r "url" = .ok u := by
    unfold pyDictGet
    rw [hurl]
  unfold createWeblink
  rw [hfmt, hpd]
  dsimp only
  by_cases h2xx : env.createStatus = 200 ∨ env.createStatus = 201
  · rw [if_pos h2xx]
    refine ⟨?_, ?_, ?_⟩
    · rcases hb : env.createBody with _ | b
      · simp [List.filter_append, resolveImage_no_create, isCreateNote]
      · simp [List.filter_append, resolveImage_no_create, isCreateNote]
    · intro _ b hb
      rw [hb]
    · intro hn
      rcases h2xx with h | h <;> exact absurd ⟨by omega, by omega⟩ hn
  · rw [if_neg h2xx]
    refine ⟨?_, ?_, ?_⟩
    · simp [List.filter_append, resolveImage_no_create, isCreateNote]
    · intro h
      exact absurd h h2xx
    · intro _
      exact ⟨_, rfl⟩

/-- Witness for claim C8 at a concrete flat record and a 404 create
response. -/
theorem createWeblink_amended_spec_witness :
    (createWeblink capEnv404 rC8).2.filter isCreateNote = [CapCall.createNote (.str "u8")]
    ∧ ((capEnv404.createStatus = 200 ∨ capEnv404.createStatus = 201) →
        ∀ b, capEnv404.createBody = some b → (createWeblink capEnv404 rC8).1 = .ok b)
    ∧ (¬ (200 ≤ capEnv404.createStatus ∧ capEnv404.createStatus < 300) →
        ∃ e, (createWeblink capEnv404 rC8).1 = .error e) :=
  createWeblink_amended_spec capEnv404 rC8 ⟨_, rfl⟩ (.str "u8") rfl
